import Mathlib

/-!
Verification development for the `exciting_information` Home Assistant
integration (`custom_components/exciting_information/sensor.py`).

The metric-derivation engine is embedded shallowly: Python floats are
modelled as exact rationals, `round(x, n)` as decimal rounding on ℚ, and
the fallible state parsing (`float(state.state)` with its `ValueError`
handler, the `unknown`/`unavailable` marker states and the missing-entity
case) as explicit `Option`s.  The one runtime fault the engine can raise,
Python's `ZeroDivisionError` at `pv_kwh / self._consumption` when the
configured consumption is zero, is modelled by an `Except` error result.
-/

namespace ExcitingInformation

/-- Units recognised by `_get_kwh_from_state` (sensor.py lines 631-636).
`other` stands for any other unit string; `none` at the use sites stands
for a missing `unit_of_measurement` attribute. -/
inductive EnergyUnit
  | wattHour
  | kilowattHour
  | watt
  | kilowatt
  | other
  deriving DecidableEq, Repr

/-- The `state.state` string of a Home Assistant state as far as
`_get_kwh_from_state` inspects it: the marker strings `unknown` and
`unavailable`, a string parsed by `float(...)` (`numeric`), or any other
string for which `float(...)` raises `ValueError` (`nonNumeric`). -/
inductive StateValue
  | unknown
  | unavailable
  | numeric (q : ℚ)
  | nonNumeric
  deriving DecidableEq, Repr

/-- A Home Assistant state object as consumed by the engine: its state
string and its optional `unit_of_measurement` attribute. -/
structure RawState where
  state : StateValue
  unit : Option EnergyUnit
  deriving DecidableEq, Repr

/-- Source classification from sensor.py lines 941-944. -/
inductive SourceKind
  | energy
  | power
  deriving DecidableEq, Repr

/-- Configured language (`hass.config.language`, first subtag); any code
outside the five template tables falls back to English. -/
inductive Language
  | de
  | en
  | fr
  | it
  | es
  | otherLang
  deriving DecidableEq, Repr

/-- Per-computation configuration: `consumption_kwh_per_100km` and the
host language. -/
structure Config where
  consumption : ℚ
  language : Language
  deriving DecidableEq, Repr

/- Reference constants, sensor.py lines 567-593. -/

def EARTH_CIRCUMFERENCE_KM : ℚ := 39100
def LISBON_BERLIN_KM : ℚ := 2310
def NEW_YORK_MEXICO_CITY_KM : ℚ := 3360
def MARATHON_KM : ℚ := 42195 / 1000
def BERLIN_HAMBURG_KM : ℚ := 289
def MUNICH_HAMBURG_KM : ℚ := 776
def PARIS_LYON_KM : ℚ := 465
def LONDON_EDINBURGH_KM : ℚ := 534
def ROME_MILAN_KM : ℚ := 571
def MADRID_BARCELONA_KM : ℚ := 621
def VIENNA_PRAGUE_KM : ℚ := 333
def LA_SF_KM : ℚ := 615
def TOKYO_OSAKA_KM : ℚ := 515
def COFFEE_KWH : ℚ := 7 / 100
def PHONE_CHARGE_KWH : ℚ := 12 / 1000
def LAPTOP_CHARGE_KWH : ℚ := 6 / 100
def LED_BULB_KWH_PER_HOUR : ℚ := 1 / 100
def TV_KWH_PER_HOUR : ℚ := 1 / 10
def HEAT_PUMP_KWH_PER_HOUR : ℚ := 5 / 2
def FRIDGE_KWH_PER_DAY : ℚ := 3 / 2
def WASHING_CYCLE_KWH : ℚ := 1
def DISHWASHER_CYCLE_KWH : ℚ := 12 / 10
def HOT_SHOWER_KWH : ℚ := 9 / 2
def MICROWAVE_MEAL_KWH : ℚ := 1 / 10
def KETTLE_BOIL_KWH : ℚ := 11 / 100
def FUEL_L_PER_100KM : ℚ := 7
def CO2_KG_PER_LITER : ℚ := 231 / 100

/-- Rounding of a rational to the nearest integer (ties up), computed via
the executable `Rat.floor`; equal to Mathlib's `round` by
`pyRound_eq_round` below. -/
def pyRound (q : ℚ) : ℤ := Rat.floor (q + 1 / 2)

/-- Python's `round(x, n)` on the values of this program, with the float
modelled as the exact rational it denotes.  Exact half-way ties, which
Python resolves to even and which occur in none of the statements below,
are rounded up here. -/
def roundTo (q : ℚ) (n : ℕ) : ℚ := (pyRound (q * (10 : ℚ) ^ n) : ℤ) / (10 : ℚ) ^ n

/-- Unit dispatch inside `_get_kwh_from_state` (sensor.py lines 631-636):
Wh → kWh and W → kW divide by 1000, kWh and kW pass through, any other or
missing unit leaves the raw value unconverted. -/
def convertValue (value : ℚ) : Option EnergyUnit → ℚ
  | some .kilowattHour => value
  | some .wattHour => value / 1000
  | some .kilowatt => value
  | some .watt => value / 1000
  | _ => value

/-- `_get_kwh_from_state` (sensor.py lines 623-636): `none` for a missing
state object, for the `unknown`/`unavailable` markers and for a state
string on which `float(...)` raises, otherwise the unit-converted kWh. -/
def getKwhFromState : Option RawState → Option ℚ
  | none => none
  | some s =>
    match s.state with
    | .numeric value => some (convertValue value s.unit)
    | _ => none

/-- Source-kind classification (sensor.py lines 941-944): `energy` iff
the unit is kWh or Wh, else `power`. -/
def sourceKindOf (u : Option EnergyUnit) : SourceKind :=
  if u = some EnergyUnit.kilowattHour ∨ u = some EnergyUnit.wattHour then
    SourceKind.energy
  else SourceKind.power

/-- Left-pad a digit string with zeros to length `n`. -/
def padZeros (s : String) (n : ℕ) : String :=
  String.mk (List.replicate (n - s.length) '0') ++ s

/-- Python's fixed-point formatting `{x:.nf}` on the (nonnegative-tie-free)
values of this program: round to `n` decimals and print with exactly `n`
fractional digits. -/
def formatFixed (q : ℚ) (n : ℕ) : String :=
  let m : ℤ := pyRound (q * (10 : ℚ) ^ n)
  let sgn := if m < 0 then "-" else ""
  let a := m.natAbs
  if n = 0 then sgn ++ toString a
  else sgn ++ toString (a / 10 ^ n) ++ "." ++ padZeros (toString (a % 10 ^ n)) n

/-- `SOURCE_LABELS` (sensor.py lines 559-565), with the English fallback
of `SOURCE_LABELS.get(self._language, SOURCE_LABELS["en"])`. -/
def sourceLabel : Language → SourceKind → String
  | .de, .energy => "Solarenergie"
  | .de, .power => "Solarleistung (1 h)"
  | .fr, .energy => "énergie solaire"
  | .fr, .power => "puissance solaire (1 h)"
  | .it, .energy => "energia solare"
  | .it, .power => "potenza solare (1 h)"
  | .es, .energy => "energía solar"
  | .es, .power => "potencia solar (1 h)"
  | _, .energy => "solar energy"
  | _, .power => "solar power (1 h)"

/-- `MESSAGE_TEMPLATES` (sensor.py lines 24-45) applied as on lines
957-966: both the consumption and the already-2-decimal-rounded distance
are interpolated with `:.1f`. -/
def messageText (lang : Language) (src : SourceKind) (consumption distanceValue : ℚ) :
    String :=
  let s := sourceLabel lang src
  let d := formatFixed distanceValue 1
  let c := formatFixed consumption 1
  match lang with
  | .de =>
    "Mit deiner aktuellen " ++ s ++ " könntest du bei einem Verbrauch von " ++ c ++
      " kWh/100 km etwa " ++ d ++ " km fahren."
  | .fr =>
    "Avec votre " ++ s ++ " actuelle, vous pourriez parcourir environ " ++ d ++
      " km pour une consommation de " ++ c ++ " kWh/100 km."
  | .it =>
    "Con la tua " ++ s ++ " attuale potresti percorrere circa " ++ d ++
      " km con un consumo di " ++ c ++ " kWh/100 km."
  | .es =>
    "Con tu " ++ s ++ " actual podrías recorrer aproximadamente " ++ d ++
      " km con un consumo de " ++ c ++ " kWh/100 km."
  | _ =>
    "With your current " ++ s ++ " you could drive about " ++ d ++
      " km at a consumption of " ++ c ++ " kWh/100 km."

/-- The per-update metric bundle: the `SolarMetrics` dataclass fields
together with the entries of its `metric_values` dict (sensor.py lines
601-615 and 991-1028).  Grid-dependent entries are `Option`s because the
dict stores `None` for them when their inputs are missing.  The dict keys
`self_consumption_ratio` and `autarky_ratio` are carried here by the
fields `self_consumption_pct` and `autarky_pct`. -/
structure SolarMetrics where
  pv_kwh : ℚ
  source_key : SourceKind
  distance_value : ℚ
  message : String
  earth_rounds : ℚ
  coffee_cups : ℚ
  fuel_saved_liters : ℚ
  lisbon_berlin_trips : ℚ
  nyc_mexico_trips : ℚ
  marathon_equivalents : ℚ
  berlin_hamburg_trips : ℚ
  munich_hamburg_trips : ℚ
  paris_lyon_trips : ℚ
  london_edinburgh_trips : ℚ
  rome_milan_trips : ℚ
  madrid_barcelona_trips : ℚ
  vienna_prague_trips : ℚ
  la_sf_trips : ℚ
  tokyo_osaka_trips : ℚ
  phone_charges : ℚ
  laptop_charges : ℚ
  led_bulb_hours : ℚ
  tv_hours : ℚ
  heat_pump_hours : ℚ
  fridge_days : ℚ
  washing_cycles : ℚ
  dishwasher_cycles : ℚ
  hot_showers : ℚ
  microwave_meals : ℚ
  kettle_boils : ℚ
  co2_saved_kg : ℚ
  self_consumed_kwh : Option ℚ
  self_consumption_pct : Option ℚ
  grid_import_kwh : Option ℚ
  grid_export_kwh : Option ℚ
  grid_net_kwh : Option ℚ
  autarky_pct : Option ℚ
  deriving DecidableEq

/-- Published state of one update: the availability flag set by
`_set_unavailable` / `_set_from_metrics`, and the computed metrics
(`none` in the unavailable case, where every entity's native value and
text are `None`). -/
structure Bundle where
  available : Bool
  metrics : Option SolarMetrics
  deriving DecidableEq

/-- `_set_unavailable` (sensor.py lines 1192-1200): availability off, no
metric values, no texts. -/
def unavailableBundle : Bundle := ⟨false, none⟩

/-- `distance` / `distance_value` (sensor.py lines 960-961):
`(pv_kwh / consumption) * 100`, rounded to two decimals. -/
def distanceMetric (pv_kwh consumption : ℚ) : ℚ :=
  roundTo (pv_kwh / consumption * 100) 2

/-- The metric computation of `_update_from_state` (sensor.py lines
957-1189) for a usable primary reading: every formula below transcribes
the corresponding source line.  `grid_export_kwh or 0` and
`grid_import_kwh or 0` agree numerically with `Option.getD _ 0` (for a
present reading Python's `or` can only replace the float `0.0` by the
int `0`). -/
def mkMetrics (cfg : Config) (pv_kwh : ℚ) (source_key : SourceKind)
    (grid_import_kwh grid_export_kwh : Option ℚ) : SolarMetrics :=
  let distance_value := distanceMetric pv_kwh cfg.consumption
  let message := messageText cfg.language source_key cfg.consumption distance_value
  let earth_rounds := roundTo (distance_value / EARTH_CIRCUMFERENCE_KM) 3
  let coffee_cups := roundTo (pv_kwh / COFFEE_KWH) 1
  let fuel_saved_liters := roundTo (distance_value * FUEL_L_PER_100KM / 100) 1
  let lisbon_berlin_trips := roundTo (distance_value / LISBON_BERLIN_KM) 2
  let nyc_mexico_trips := roundTo (distance_value / NEW_YORK_MEXICO_CITY_KM) 2
  let self_consumed_kwh :=
    grid_export_kwh.map fun e => max (pv_kwh - e) 0
  let self_consumption_pct :=
    match self_consumed_kwh with
    | some sc => if 0 < pv_kwh then some (sc / pv_kwh * 100) else none
    | none => none
  let grid_net_kwh :=
    if grid_import_kwh.isSome ∨ grid_export_kwh.isSome then
      some (grid_export_kwh.getD 0 - grid_import_kwh.getD 0)
    else none
  let autarky_pct :=
    match self_consumed_kwh, grid_import_kwh with
    | some sc, some gi => if 0 < sc + gi then some (sc / (sc + gi) * 100) else none
    | _, _ => none
  { pv_kwh := pv_kwh
    source_key := source_key
    distance_value := distance_value
    message := message
    earth_rounds := earth_rounds
    coffee_cups := coffee_cups
    fuel_saved_liters := fuel_saved_liters
    lisbon_berlin_trips := lisbon_berlin_trips
    nyc_mexico_trips := nyc_mexico_trips
    marathon_equivalents := roundTo (distance_value / MARATHON_KM) 2
    berlin_hamburg_trips := roundTo (distance_value / BERLIN_HAMBURG_KM) 2
    munich_hamburg_trips := roundTo (distance_value / MUNICH_HAMBURG_KM) 2
    paris_lyon_trips := roundTo (distance_value / PARIS_LYON_KM) 2
    london_edinburgh_trips := roundTo (distance_value / LONDON_EDINBURGH_KM) 2
    rome_milan_trips := roundTo (distance_value / ROME_MILAN_KM) 2
    madrid_barcelona_trips := roundTo (distance_value / MADRID_BARCELONA_KM) 2
    vienna_prague_trips := roundTo (distance_value / VIENNA_PRAGUE_KM) 2
    la_sf_trips := roundTo (distance_value / LA_SF_KM) 2
    tokyo_osaka_trips := roundTo (distance_value / TOKYO_OSAKA_KM) 2
    phone_charges := roundTo (pv_kwh / PHONE_CHARGE_KWH) 0
    laptop_charges := roundTo (pv_kwh / LAPTOP_CHARGE_KWH) 0
    led_bulb_hours := roundTo (pv_kwh / LED_BULB_KWH_PER_HOUR) 0
    tv_hours := roundTo (pv_kwh / TV_KWH_PER_HOUR) 0
    heat_pump_hours := roundTo (pv_kwh / HEAT_PUMP_KWH_PER_HOUR) 0
    fridge_days := roundTo (pv_kwh / FRIDGE_KWH_PER_DAY) 1
    washing_cycles := roundTo (pv_kwh / WASHING_CYCLE_KWH) 1
    dishwasher_cycles := roundTo (pv_kwh / DISHWASHER_CYCLE_KWH) 1
    hot_showers := roundTo (pv_kwh / HOT_SHOWER_KWH) 1
    microwave_meals := roundTo (pv_kwh / MICROWAVE_MEAL_KWH) 0
    kettle_boils := roundTo (pv_kwh / KETTLE_BOIL_KWH) 0
    co2_saved_kg := roundTo (fuel_saved_liters * CO2_KG_PER_LITER) 1
    self_consumed_kwh := self_consumed_kwh.map fun sc => roundTo sc 2
    self_consumption_pct := self_consumption_pct.map fun x => roundTo x 1
    grid_import_kwh := grid_import_kwh.map fun x => roundTo x 2
    grid_export_kwh := grid_export_kwh.map fun x => roundTo x 2
    grid_net_kwh := grid_net_kwh.map fun x => roundTo x 2
    autarky_pct := autarky_pct.map fun x => roundTo x 1 }

/-- `_update_from_state` (sensor.py lines 930-1190): the primary state is
rejected when missing, marked `unknown`/`unavailable`, or non-numeric
(`_set_unavailable`); otherwise the metric bundle is computed and
published atomically.  A zero configured consumption would raise
`ZeroDivisionError` at line 960, modelled by the `.error` branch. -/
def updateFromState (cfg : Config) (pv grid_import grid_export : Option RawState) :
    Except String Bundle :=
  match pv with
  | none => .ok unavailableBundle
  | some s =>
    if s.state = StateValue.unknown ∨ s.state = StateValue.unavailable then
      .ok unavailableBundle
    else
      match getKwhFromState (some s) with
      | none => .ok unavailableBundle
      | some pv_kwh =>
        if cfg.consumption = 0 then .error "ZeroDivisionError"
        else
          .ok ⟨true, some (mkMetrics cfg pv_kwh (sourceKindOf s.unit)
            (getKwhFromState grid_import) (getKwhFromState grid_export))⟩

/-- The metrics of a published result, if any. -/
def metricsOf : Except String Bundle → Option SolarMetrics
  | .ok b => b.metrics
  | .error _ => none

/-- The availability flag of a published result (an uncaught exception
publishes nothing). -/
def availableOf : Except String Bundle → Bool
  | .ok b => b.available
  | .error _ => false

/-- The published `distance` state value, if any. -/
def distanceOf (r : Except String Bundle) : Option ℚ :=
  (metricsOf r).map SolarMetrics.distance_value

/-- The published `message` state value, if any. -/
def messageOf (r : Except String Bundle) : Option String :=
  (metricsOf r).map SolarMetrics.message

/-! ### Helper lemmas -/

theorem pyRound_eq_round (q : ℚ) : pyRound q = round q := by
  rw [pyRound, round_eq, Rat.floor_def]
  exact Rat.floor_def' _

theorem roundTo_le_roundTo {a b : ℚ} (n : ℕ) (hab : a ≤ b) :
    roundTo a n ≤ roundTo b n := by
  have hpow : (0 : ℚ) < (10 : ℚ) ^ n := pow_pos (by norm_num) n
  have h1 : pyRound (a * 10 ^ n) ≤ pyRound (b * 10 ^ n) := by
    rw [pyRound_eq_round, pyRound_eq_round, round_eq, round_eq]
    exact Int.floor_mono (by nlinarith)
  unfold roundTo
  gcongr

theorem roundTo_zero (n : ℕ) : roundTo 0 n = 0 := by
  simp [roundTo, pyRound_eq_round]

theorem roundTo_nonpos {a : ℚ} (n : ℕ) (ha : a ≤ 0) : roundTo a n ≤ 0 := by
  have h := roundTo_le_roundTo n ha
  rwa [roundTo_zero] at h

theorem roundTo_nonneg {a : ℚ} (n : ℕ) (ha : 0 ≤ a) : 0 ≤ roundTo a n := by
  have h := roundTo_le_roundTo n ha
  rwa [roundTo_zero] at h

/-- The unavailable path of `_update_from_state`: a primary reading that
yields no kWh value short-circuits to `_set_unavailable`. -/
theorem updateFromState_unusable (cfg : Config) (pv gi ge : Option RawState)
    (h : getKwhFromState pv = none) :
    updateFromState cfg pv gi ge = .ok ⟨false, none⟩ := by
  cases pv with
  | none => rfl
  | some s =>
    obtain ⟨st, u⟩ := s
    cases st <;> simp_all [updateFromState, getKwhFromState, unavailableBundle]

/-- The available path of `_update_from_state`: a numeric primary reading
with nonzero configured consumption produces the metric bundle. -/
theorem updateFromState_numeric (cfg : Config) (v : ℚ) (u : Option EnergyUnit)
    (gi ge : Option RawState) (hc : cfg.consumption ≠ 0) :
    updateFromState cfg (some ⟨.numeric v, u⟩) gi ge =
      .ok ⟨true, some (mkMetrics cfg (convertValue v u) (sourceKindOf u)
        (getKwhFromState gi) (getKwhFromState ge))⟩ := by
  simp [updateFromState, getKwhFromState, hc]

/-! ### Claim theorems -/

/-- C1: for every usable primary PV reading yielding `pv_kwh` and every
strictly positive configured `consumption_per_100`, the published distance
metric equals `round(pv_kwh / consumption_per_100 * 100, 2)`. -/
theorem distance_metric_spec (cfg : Config) (pv gi ge : Option RawState) (pv_kwh : ℚ)
    (hpv : getKwhFromState pv = some pv_kwh) (hc : 0 < cfg.consumption) :
    distanceOf (updateFromState cfg pv gi ge) =
      some (roundTo (pv_kwh / cfg.consumption * 100) 2) := by
  cases pv with
  | none => simp [getKwhFromState] at hpv
  | some s =>
    obtain ⟨st, u⟩ := s
    cases st with
    | numeric v =>
      simp only [getKwhFromState, Option.some.injEq] at hpv
      subst hpv
      rw [updateFromState_numeric cfg v u gi ge hc.ne']
      simp [distanceOf, metricsOf, mkMetrics, distanceMetric]
    | unknown => simp [getKwhFromState] at hpv
    | unavailable => simp [getKwhFromState] at hpv
    | nonNumeric => simp [getKwhFromState] at hpv

/-- C1 witness: pv = 9 kWh, consumption = 18. -/
theorem distance_metric_spec_witness :
    getKwhFromState (some ⟨.numeric 9, some .kilowattHour⟩) = some 9 ∧
    (0 : ℚ) < 18 ∧
    distanceOf (updateFromState ⟨18, .en⟩ (some ⟨.numeric 9, some .kilowattHour⟩) none none) =
      some (roundTo (9 / 18 * 100) 2) :=
  ⟨rfl, by norm_num, distance_metric_spec ⟨18, .en⟩ _ none none 9 rfl (by norm_num)⟩

/-- C2: a primary reading that is absent, non-numeric, or in the marker
state unknown/unavailable yields the fully-unavailable bundle:
available = false with no metric or text values — never a partial one. -/
theorem unusable_primary_unavailable (cfg : Config) (pv gi ge : Option RawState)
    (h : getKwhFromState pv = none) :
    updateFromState cfg pv gi ge = .ok ⟨false, none⟩ :=
  updateFromState_unusable cfg pv gi ge h

/-- C2 witness: a primary reading in marker state unknown. -/
theorem unusable_primary_unavailable_witness :
    getKwhFromState (some ⟨.unknown, none⟩) = none ∧
    updateFromState ⟨18, .en⟩ (some ⟨.unknown, none⟩) none none = .ok ⟨false, none⟩ :=
  ⟨rfl, unusable_primary_unavailable ⟨18, .en⟩ _ none none rfl⟩

/-- The C3 scenario input: reading 5.0 kWh, consumption 18.0, language en. -/
def scenarioEn : Except String Bundle :=
  updateFromState ⟨18, .en⟩ (some ⟨.numeric 5, some .kilowattHour⟩) none none

/-- C3 counterexample: at the scenario input the published message carries
the distance rounded to ONE decimal (the template interpolates it with a
one-decimal format), so it reads "about 27.8 km", not the claimed
"about 27.78 km". -/
theorem scenario_en_counterexample :
    messageOf scenarioEn ≠
      some "With your current solar energy you could drive about 27.78 km at a consumption of 18.0 kWh/100 km." := by
  have h : messageOf scenarioEn =
      some "With your current solar energy you could drive about 27.8 km at a consumption of 18.0 kWh/100 km." := by
    with_unfolding_all rfl
  rw [h]
  decide

/-- C3 amended: at the scenario input the engine publishes
distance = 27.78 and coffee_cups = 71.4 as claimed, but the message is
"With your current solar energy you could drive about 27.8 km at a
consumption of 18.0 kWh/100 km." — the distance inside the message text is
rounded to one decimal. -/
theorem scenario_en_amended :
    distanceOf scenarioEn = some (2778 / 100) ∧
    messageOf scenarioEn =
      some "With your current solar energy you could drive about 27.8 km at a consumption of 18.0 kWh/100 km." ∧
    (metricsOf scenarioEn).map SolarMetrics.coffee_cups = some (714 / 10) := by
  refine ⟨?_, ?_, ?_⟩ <;> with_unfolding_all rfl

/-- C5: with the configured consumption positive (the config flow only
accepts values in [1, 100]), the engine is total: every input yields an
`ok` bundle — no arithmetic fault reaches the caller, and in particular
the `ZeroDivisionError` branch is never taken. -/
theorem engine_no_exception (cfg : Config) (pv gi ge : Option RawState)
    (hc : 0 < cfg.consumption) :
    ∃ b : Bundle, updateFromState cfg pv gi ge = .ok b := by
  cases pv with
  | none => exact ⟨_, rfl⟩
  | some s =>
    obtain ⟨st, u⟩ := s
    cases st with
    | numeric v => exact ⟨_, updateFromState_numeric cfg v u gi ge hc.ne'⟩
    | unknown => exact ⟨_, updateFromState_unusable cfg _ gi ge rfl⟩
    | unavailable => exact ⟨_, updateFromState_unusable cfg _ gi ge rfl⟩
    | nonNumeric => exact ⟨_, updateFromState_unusable cfg _ gi ge rfl⟩

/-- C5 witness: a non-numeric primary state with consumption 18. -/
theorem engine_no_exception_witness :
    (0 : ℚ) < 18 ∧
    ∃ b : Bundle, updateFromState ⟨18, .en⟩ (some ⟨.nonNumeric, none⟩) none none = .ok b :=
  ⟨by norm_num, engine_no_exception ⟨18, .en⟩ _ none none (by norm_num)⟩

/-- C7: a reading of 1000 Wh and a reading of 1 kWh normalize to the same
kwh = 1.0 with source kind energy, and produce identical published
bundles. -/
theorem unit_normalization_wh_kwh :
    getKwhFromState (some ⟨.numeric 1000, some .wattHour⟩) = some 1 ∧
    getKwhFromState (some ⟨.numeric 1, some .kilowattHour⟩) = some 1 ∧
    sourceKindOf (some .wattHour) = .energy ∧
    sourceKindOf (some .kilowattHour) = .energy ∧
    updateFromState ⟨18, .en⟩ (some ⟨.numeric 1000, some .wattHour⟩) none none =
      updateFromState ⟨18, .en⟩ (some ⟨.numeric 1, some .kilowattHour⟩) none none := by
  refine ⟨?_, ?_, ?_, ?_, ?_⟩ <;> with_unfolding_all rfl

/-- C4: for a usable primary reading with the grid-export reading absent,
`self_consumed_kwh`, the self-consumption percentage and the autarky
percentage are all null, while the distance and every energy-only metric
keep their normal values. -/
theorem grid_export_absent_nulls (cfg : Config) (pv gi ge : Option RawState) (pv_kwh : ℚ)
    (hpv : getKwhFromState pv = some pv_kwh) (hc : 0 < cfg.consumption)
    (hge : getKwhFromState ge = none) :
    ∃ m, metricsOf (updateFromState cfg pv gi ge) = some m ∧
      m.self_consumed_kwh = none ∧
      m.self_consumption_pct = none ∧
      m.autarky_pct = none ∧
      m.distance_value = roundTo (pv_kwh / cfg.consumption * 100) 2 ∧
      m.coffee_cups = roundTo (pv_kwh / COFFEE_KWH) 1 ∧
      m.phone_charges = roundTo (pv_kwh / PHONE_CHARGE_KWH) 0 ∧
      m.laptop_charges = roundTo (pv_kwh / LAPTOP_CHARGE_KWH) 0 ∧
      m.led_bulb_hours = roundTo (pv_kwh / LED_BULB_KWH_PER_HOUR) 0 ∧
      m.tv_hours = roundTo (pv_kwh / TV_KWH_PER_HOUR) 0 ∧
      m.heat_pump_hours = roundTo (pv_kwh / HEAT_PUMP_KWH_PER_HOUR) 0 ∧
      m.fridge_days = roundTo (pv_kwh / FRIDGE_KWH_PER_DAY) 1 ∧
      m.washing_cycles = roundTo (pv_kwh / WASHING_CYCLE_KWH) 1 ∧
      m.dishwasher_cycles = roundTo (pv_kwh / DISHWASHER_CYCLE_KWH) 1 ∧
      m.hot_showers = roundTo (pv_kwh / HOT_SHOWER_KWH) 1 ∧
      m.microwave_meals = roundTo (pv_kwh / MICROWAVE_MEAL_KWH) 0 ∧
      m.kettle_boils = roundTo (pv_kwh / KETTLE_BOIL_KWH) 0 := by
  cases pv with
  | none => simp [getKwhFromState] at hpv
  | some s =>
    obtain ⟨st, u⟩ := s
    cases st with
    | numeric v =>
      simp only [getKwhFromState, Option.some.injEq] at hpv
      subst hpv
      rw [updateFromState_numeric cfg v u gi ge hc.ne', hge]
      refine ⟨_, rfl, ?_⟩
      simp [metricsOf, mkMetrics, distanceMetric]
    | unknown => simp [getKwhFromState] at hpv
    | unavailable => simp [getKwhFromState] at hpv
    | nonNumeric => simp [getKwhFromState] at hpv

/-- C4 witness: pv = 3 kWh, grid import present, grid export absent. -/
theorem grid_export_absent_nulls_witness :
    getKwhFromState (some ⟨.numeric 3, some .kilowattHour⟩) = some 3 ∧
    (0 : ℚ) < 18 ∧
    getKwhFromState none = none ∧
    (∃ m, metricsOf (updateFromState ⟨18, .en⟩ (some ⟨.numeric 3, some .kilowattHour⟩)
        (some ⟨.numeric 1, some .kilowattHour⟩) none) = some m ∧
      m.self_consumed_kwh = none ∧
      m.self_consumption_pct = none ∧
      m.autarky_pct = none ∧
      m.distance_value = roundTo (3 / 18 * 100) 2 ∧
      m.coffee_cups = roundTo (3 / COFFEE_KWH) 1 ∧
      m.phone_charges = roundTo (3 / PHONE_CHARGE_KWH) 0 ∧
      m.laptop_charges = roundTo (3 / LAPTOP_CHARGE_KWH) 0 ∧
      m.led_bulb_hours = roundTo (3 / LED_BULB_KWH_PER_HOUR) 0 ∧
      m.tv_hours = roundTo (3 / TV_KWH_PER_HOUR) 0 ∧
      m.heat_pump_hours = roundTo (3 / HEAT_PUMP_KWH_PER_HOUR) 0 ∧
      m.fridge_days = roundTo (3 / FRIDGE_KWH_PER_DAY) 1 ∧
      m.washing_cycles = roundTo (3 / WASHING_CYCLE_KWH) 1 ∧
      m.dishwasher_cycles = roundTo (3 / DISHWASHER_CYCLE_KWH) 1 ∧
      m.hot_showers = roundTo (3 / HOT_SHOWER_KWH) 1 ∧
      m.microwave_meals = roundTo (3 / MICROWAVE_MEAL_KWH) 0 ∧
      m.kettle_boils = roundTo (3 / KETTLE_BOIL_KWH) 0) :=
  ⟨rfl, by norm_num, rfl,
    grid_export_absent_nulls ⟨18, .en⟩ _ (some ⟨.numeric 1, some .kilowattHour⟩) none 3
      rfl (by norm_num) rfl⟩

/-- C6: the published `grid_net_kwh` is export minus import (missing side
treated as 0, the difference rounded to 2 decimals) whenever at least one
grid reading is present, and null when both are absent. -/
theorem grid_net_spec (cfg : Config) (pv gi ge : Option RawState) (pv_kwh : ℚ)
    (hpv : getKwhFromState pv = some pv_kwh) (hc : 0 < cfg.consumption) :
    ∃ m, metricsOf (updateFromState cfg pv gi ge) = some m ∧
      m.grid_net_kwh =
        (if (getKwhFromState gi).isSome ∨ (getKwhFromState ge).isSome then
          some (roundTo ((getKwhFromState ge).getD 0 - (getKwhFromState gi).getD 0) 2)
        else none) := by
  cases pv with
  | none => simp [getKwhFromState] at hpv
  | some s =>
    obtain ⟨st, u⟩ := s
    cases st with
    | numeric v =>
      simp only [getKwhFromState, Option.some.injEq] at hpv
      subst hpv
      rw [updateFromState_numeric cfg v u gi ge hc.ne']
      refine ⟨_, rfl, ?_⟩
      by_cases hcond : (getKwhFromState gi).isSome ∨ (getKwhFromState ge).isSome
      · simp [metricsOf, mkMetrics, hcond]
      · simp [metricsOf, mkMetrics, hcond]
    | unknown => simp [getKwhFromState] at hpv
    | unavailable => simp [getKwhFromState] at hpv
    | nonNumeric => simp [getKwhFromState] at hpv

/-- C6 witness: pv = 4 kWh, import 2 kWh present, export absent. -/
theorem grid_net_spec_witness :
    getKwhFromState (some ⟨.numeric 4, some .kilowattHour⟩) = some 4 ∧
    (0 : ℚ) < 18 ∧
    (∃ m, metricsOf (updateFromState ⟨18, .en⟩ (some ⟨.numeric 4, some .kilowattHour⟩)
        (some ⟨.numeric 2, some .kilowattHour⟩) none) = some m ∧
      m.grid_net_kwh =
        (if (getKwhFromState (some (⟨.numeric 2, some .kilowattHour⟩ : RawState))).isSome ∨
            (getKwhFromState none).isSome then
          some (roundTo ((getKwhFromState none).getD 0 -
            (getKwhFromState (some (⟨.numeric 2, some .kilowattHour⟩ : RawState))).getD 0) 2)
        else none)) :=
  ⟨rfl, by norm_num,
    grid_net_spec ⟨18, .en⟩ _ (some ⟨.numeric 2, some .kilowattHour⟩) none 4 rfl (by norm_num)⟩

/-- C8: at pv = 0 (any positive consumption) the distance, every
distance-based trip/round metric and the coffee metric are 0, and the
self-consumption percentage is null even with a grid-export reading
present. -/
theorem zero_pv_boundary (cfg : Config) (gi ge : Option RawState) (e : ℚ)
    (hc : 0 < cfg.consumption) (hge : getKwhFromState ge = some e) :
    ∃ m, metricsOf (updateFromState cfg (some ⟨.numeric 0, some .kilowattHour⟩) gi ge) =
        some m ∧
      m.distance_value = 0 ∧
      m.earth_rounds = 0 ∧
      m.lisbon_berlin_trips = 0 ∧
      m.nyc_mexico_trips = 0 ∧
      m.marathon_equivalents = 0 ∧
      m.berlin_hamburg_trips = 0 ∧
      m.munich_hamburg_trips = 0 ∧
      m.paris_lyon_trips = 0 ∧
      m.london_edinburgh_trips = 0 ∧
      m.rome_milan_trips = 0 ∧
      m.madrid_barcelona_trips = 0 ∧
      m.vienna_prague_trips = 0 ∧
      m.la_sf_trips = 0 ∧
      m.tokyo_osaka_trips = 0 ∧
      m.coffee_cups = 0 ∧
      m.self_consumption_pct = none := by
  rw [updateFromState_numeric cfg 0 (some .kilowattHour) gi ge hc.ne', hge]
  refine ⟨_, rfl, ?_⟩
  simp [metricsOf, mkMetrics, distanceMetric, convertValue, roundTo_zero]

/-- C8 witness: consumption 18, grid export present with 2 kWh. -/
theorem zero_pv_boundary_witness :
    (0 : ℚ) < 18 ∧
    getKwhFromState (some ⟨.numeric 2, some .kilowattHour⟩) = some 2 ∧
    (∃ m, metricsOf (updateFromState ⟨18, .en⟩ (some ⟨.numeric 0, some .kilowattHour⟩)
        none (some ⟨.numeric 2, some .kilowattHour⟩)) = some m ∧
      m.distance_value = 0 ∧
      m.earth_rounds = 0 ∧
      m.lisbon_berlin_trips = 0 ∧
      m.nyc_mexico_trips = 0 ∧
      m.marathon_equivalents = 0 ∧
      m.berlin_hamburg_trips = 0 ∧
      m.munich_hamburg_trips = 0 ∧
      m.paris_lyon_trips = 0 ∧
      m.london_edinburgh_trips = 0 ∧
      m.rome_milan_trips = 0 ∧
      m.madrid_barcelona_trips = 0 ∧
      m.vienna_prague_trips = 0 ∧
      m.la_sf_trips = 0 ∧
      m.tokyo_osaka_trips = 0 ∧
      m.coffee_cups = 0 ∧
      m.self_consumption_pct = none) :=
  ⟨by norm_num, rfl,
    zero_pv_boundary ⟨18, .en⟩ none (some ⟨.numeric 2, some .kilowattHour⟩) 2
      (by norm_num) rfl⟩

/-- C9: for positive pv and positive consumption the distance metric is
monotone: non-decreasing in pv at fixed consumption, non-increasing in
consumption at fixed pv. -/
theorem distance_monotone (p1 p2 q c c1 c2 : ℚ)
    (hp1 : 0 < p1) (hp12 : p1 ≤ p2) (hc : 0 < c)
    (hq : 0 < q) (hc1 : 0 < c1) (hc12 : c1 ≤ c2) :
    distanceMetric p1 c ≤ distanceMetric p2 c ∧
    distanceMetric q c2 ≤ distanceMetric q c1 := by
  constructor
  · exact roundTo_le_roundTo 2 (by gcongr)
  · exact roundTo_le_roundTo 2 (by gcongr)

/-- C9 witness: 2 ≤ 3 kWh at consumption 18, and consumption 10 ≤ 20 at
4 kWh. -/
theorem distance_monotone_witness :
    (0 : ℚ) < 2 ∧ (2 : ℚ) ≤ 3 ∧ (0 : ℚ) < 18 ∧ (0 : ℚ) < 4 ∧ (0 : ℚ) < 10 ∧
    (10 : ℚ) ≤ 20 ∧
    (distanceMetric 2 18 ≤ distanceMetric 3 18 ∧
      distanceMetric 4 20 ≤ distanceMetric 4 10) :=
  ⟨by norm_num, by norm_num, by norm_num, by norm_num, by norm_num, by norm_num,
    distance_monotone 2 3 4 18 10 20 (by norm_num) (by norm_num) (by norm_num)
      (by norm_num) (by norm_num) (by norm_num)⟩

/-- C10: a finite negative numeric primary reading is accepted as usable:
the bundle is published available = true, the distance and the energy
metrics keep their (nonpositive) unclamped formula values, and only
`self_consumed_kwh` is clamped at zero. -/
theorem negative_reading_usable (cfg : Config) (gi ge : Option RawState) (q e : ℚ)
    (hq : q < 0) (hc : 0 < cfg.consumption) (hge : getKwhFromState ge = some e) :
    availableOf (updateFromState cfg (some ⟨.numeric q, some .kilowattHour⟩) gi ge) = true ∧
    ∃ m, metricsOf (updateFromState cfg (some ⟨.numeric q, some .kilowattHour⟩) gi ge) =
        some m ∧
      m.distance_value = roundTo (q / cfg.consumption * 100) 2 ∧
      m.distance_value ≤ 0 ∧
      m.coffee_cups = roundTo (q / COFFEE_KWH) 1 ∧
      m.coffee_cups ≤ 0 ∧
      m.phone_charges = roundTo (q / PHONE_CHARGE_KWH) 0 ∧
      m.phone_charges ≤ 0 ∧
      m.self_consumed_kwh = some (roundTo (max (q - e) 0) 2) ∧
      (∀ sc, m.self_consumed_kwh = some sc → 0 ≤ sc) := by
  rw [updateFromState_numeric cfg q (some .kilowattHour) gi ge hc.ne', hge]
  have hdist : q / cfg.consumption * 100 ≤ 0 := by
    have h1 : q / cfg.consumption ≤ 0 := div_nonpos_iff.mpr (Or.inr ⟨hq.le, hc.le⟩)
    linarith
  have hcoffee : q / COFFEE_KWH ≤ 0 := by
    refine div_nonpos_iff.mpr (Or.inr ⟨hq.le, ?_⟩)
    norm_num [COFFEE_KWH]
  have hphone : q / PHONE_CHARGE_KWH ≤ 0 := by
    refine div_nonpos_iff.mpr (Or.inr ⟨hq.le, ?_⟩)
    norm_num [PHONE_CHARGE_KWH]
  refine ⟨rfl, _, rfl, rfl, ?_, rfl, ?_, rfl, ?_, rfl, ?_⟩
  · exact roundTo_nonpos 2 hdist
  · exact roundTo_nonpos 1 hcoffee
  · exact roundTo_nonpos 0 hphone
  · intro sc hsc
    have h2 := Option.some.inj hsc
    rw [← h2]
    exact roundTo_nonneg 2 (le_max_right _ _)

/-- C10 witness: pv reading -5 kWh, consumption 18, export reading 0; the
published distance value is the strictly negative -27.78 and the coffee
metric the strictly negative -71.4. -/
theorem negative_reading_usable_witness :
    (-5 : ℚ) < 0 ∧ (0 : ℚ) < 18 ∧
    getKwhFromState (some ⟨.numeric 0, some .kilowattHour⟩) = some 0 ∧
    (availableOf (updateFromState ⟨18, .en⟩ (some ⟨.numeric (-5), some .kilowattHour⟩)
        none (some ⟨.numeric 0, some .kilowattHour⟩)) = true ∧
      ∃ m, metricsOf (updateFromState ⟨18, .en⟩ (some ⟨.numeric (-5), some .kilowattHour⟩)
          none (some ⟨.numeric 0, some .kilowattHour⟩)) = some m ∧
        m.distance_value = roundTo ((-5) / 18 * 100) 2 ∧
        m.distance_value ≤ 0 ∧
        m.coffee_cups = roundTo ((-5) / COFFEE_KWH) 1 ∧
        m.coffee_cups ≤ 0 ∧
        m.phone_charges = roundTo ((-5) / PHONE_CHARGE_KWH) 0 ∧
        m.phone_charges ≤ 0 ∧
        m.self_consumed_kwh = some (roundTo (max ((-5) - 0) 0) 2) ∧
        (∀ sc, m.self_consumed_kwh = some sc → 0 ≤ sc)) ∧
    roundTo ((-5 : ℚ) / 18 * 100) 2 = -(2778 / 100) ∧
    roundTo ((-5 : ℚ) / COFFEE_KWH) 1 = -(714 / 10) :=
  ⟨by norm_num, by norm_num, rfl,
    negative_reading_usable ⟨18, .en⟩ none (some ⟨.numeric 0, some .kilowattHour⟩) (-5) 0
      (by norm_num) (by norm_num) rfl,
    by with_unfolding_all rfl, by with_unfolding_all rfl⟩

end ExcitingInformation
